import Mathlib

/-
Verification development for the poc_apl backend: a shallow embedding of the
query gate, ingestion pipeline, plotting tools (backend/tools/timescale.py,
backend/tools/plots.py, backend/timescaledb.py) and the SSE streaming
multiplexer (backend/main.py), together with theorems settling the spec's
claims about them.

Python strings are embedded as lists of characters; the TimescaleDB store is
an abstract collaborator: an oracle mapping a SQL text to the full result set
(or error) the store would produce for it.  Doubles and timestamps are
embedded as rationals; the claims proved here never depend on float rounding.
-/

namespace PocApl

/-- Embedding of a Python `str` value as its list of characters. -/
abbrev PyStr := List Char

/-- Characters of a Lean string literal, used to write `PyStr` constants. -/
def str (s : String) : PyStr := s.data

/-- Python `str.strip()`: remove leading and trailing whitespace. -/
def pyStrip (s : PyStr) : PyStr :=
  ((s.dropWhile Char.isWhitespace).reverse.dropWhile Char.isWhitespace).reverse

/-- Python `str.upper()` on the ASCII range (the range the SQL keywords use). -/
def pyUpper (s : PyStr) : PyStr := s.map Char.toUpper

/-- One cell of a SQL result row as fetched by the driver.  The first five
constructors are the Python types `query_sensor_data` treats as natively
JSON-serialisable (`int`, `float`, `str`, `bool`, `NoneType`); `exotic` covers
every other driver type (datetime, Decimal, …) and carries its `str()` form. -/
inductive Cell where
  | null : Cell
  | boolVal : Bool → Cell
  | intVal : Int → Cell
  | floatVal : ℚ → Cell
  | strVal : PyStr → Cell
  | exotic : PyStr → Cell
deriving DecidableEq

/-- The in-place fix-up in `query_sensor_data` (timescale.py lines 147-150):
a cell that is not `int`/`float`/`str`/`bool`/`None` is replaced by `str(cell)`. -/
def convertCell : Cell → Cell
  | .exotic s => .strVal s
  | c => c

/-- A result set as returned by `cur.description` and `cur.fetchall()`. -/
structure PgResult where
  columns : List PyStr
  rows : List (List Cell)
deriving DecidableEq

/-- The store as an abstract collaborator: the full result set (or error) that
executing a given SQL text would produce.  `Except.error` stands for a
psycopg2 exception raised by `cur.execute`. -/
abbrev Db := PyStr → Except PyStr PgResult

/-- Constant `_MAX_ROWS` from timescale.py line 19. -/
def MAX_ROWS : Nat := 500

/-- The wrapped statement an accepted query sends to the store
(timescale.py line 142): `SELECT * FROM ({sql}) _q LIMIT 500`. -/
def wrapSql (sql : PyStr) : PyStr :=
  str "SELECT * FROM (" ++ sql ++ str ") _q LIMIT 500"

/-- Semantics of executing `wrapSql sql`: PostgreSQL evaluates the inner query
in full and the outer `LIMIT 500` keeps at most the first 500 of its rows. -/
def runWrapped (db : Db) (sql : PyStr) : Except PyStr PgResult :=
  match db sql with
  | .error e => .error e
  | .ok r => .ok { r with rows := r.rows.take MAX_ROWS }

/-- The validation test of `query_sensor_data` (timescale.py lines 134-135):
`sql.strip().upper()` must start with `SELECT` or with `WITH`. -/
def gateAccepts (sql : PyStr) : Bool :=
  let sqlStripped := pyUpper (pyStrip sql)
  (str "SELECT").isPrefixOf sqlStripped || (str "WITH").isPrefixOf sqlStripped

/-- Structured result of the query tool: the rejection branch, the caught-
exception branch (`{"error": str(e)}`), or `{columns, rows, count}`. -/
inductive QueryResult where
  | rejected : PyStr → QueryResult
  | failed : PyStr → QueryResult
  | ok : List PyStr → List (List Cell) → Nat → QueryResult
deriving DecidableEq

/-- Observable outcome of one query-tool call: the statements actually sent to
the store, and the structured result returned to the agent. -/
structure QueryOutcome where
  sent : List PyStr
  result : QueryResult
deriving DecidableEq

/-- Embedding of `query_sensor_data` (timescale.py lines 112-156).  A rejected
statement returns before any store interaction; an accepted one sends exactly
the wrapped statement, converts non-serialisable cells to strings, and reports
`count = len(rows)`.  The connection itself is assumed reachable (a connection
failure would be caught by the same `except` and send nothing). -/
def query_sensor_data (db : Db) (sql : PyStr) : QueryOutcome :=
  if gateAccepts sql = false then
    { sent := [], result := .rejected (str "Only SELECT queries are allowed.") }
  else
    match runWrapped db sql with
    | .error e => { sent := [wrapSql sql], result := .failed e }
    | .ok r =>
        let rows := r.rows.map (fun row => row.map convertCell)
        { sent := [wrapSql sql], result := .ok r.columns rows rows.length }

/-- One row of the `measurements` table declared by `_SCHEMA_SQL`
(timescaledb.py lines 16-34): `(time TIMESTAMPTZ, file_name TEXT,
channel TEXT, value DOUBLE PRECISION, unit TEXT)`, with `value` nullable. -/
structure MeasurementRow where
  time : ℚ
  file_name : PyStr
  channel : PyStr
  value : Option ℚ
  unit : PyStr
deriving DecidableEq

/-- The unique and exclusion constraints `_SCHEMA_SQL` declares on
`measurements`.  The DDL creates the table with no PRIMARY KEY and no UNIQUE
clause, `create_hypertable` adds no constraint, and both `CREATE INDEX`
statements create plain non-unique indexes — so the list is empty. -/
def measurementsUniqueConstraints : List (MeasurementRow → MeasurementRow → Bool) := []

/-- PostgreSQL semantics of `INSERT ... ON CONFLICT DO NOTHING` with no
conflict target: the new row is skipped exactly when it conflicts with an
existing row under some unique or exclusion constraint of the target table;
when no constraint applies, the row is inserted (tables are bags). -/
def insertOnConflictDoNothing (constraints : List (MeasurementRow → MeasurementRow → Bool))
    (table : List MeasurementRow) (r : MeasurementRow) : List MeasurementRow :=
  if constraints.any (fun conflict => table.any (fun r0 => conflict r0 r)) then table
  else table ++ [r]

/-- The batched `execute_values` insert of one channel's rows (timescale.py
lines 76-87).  Splitting into `_BATCH_SIZE` chunks does not change which rows
end up in the table, so the batches are folded row by row. -/
def insertRows (table : List MeasurementRow) (rows : List MeasurementRow) : List MeasurementRow :=
  rows.foldl (insertOnConflictDoNothing measurementsUniqueConstraints) table

/-- A raw sample from the decoder: a finite numeric value, a non-finite float
(NaN or ±Inf), or a value that `float()` cannot convert. -/
inductive RawSample where
  | finite : ℚ → RawSample
  | nonFinite : RawSample
  | nonNumeric : RawSample
deriving DecidableEq

/-- Value coercion of timescale.py lines 68-72: `float(raw_val)` guarded by
`np.isfinite`, with `TypeError`/`ValueError` caught — non-finite and
non-convertible samples become NULL, never zero. -/
def sampleValue : RawSample → Option ℚ
  | .finite q => some q
  | .nonFinite => none
  | .nonNumeric => none

/-- An asammdf signal: parallel lists of relative timestamps (seconds) and
samples, plus the channel unit (`sig.unit or ""`; the empty string already
stands for a falsy unit, so the `or ""` is the identity here). -/
structure Signal where
  timestamps : List ℚ
  samples : List RawSample
  unit : PyStr
deriving DecidableEq

/-- What one channel, taken on its own, would meet inside the per-channel
`try` of `ingest_mdf_to_db`: `mdf.get` may raise (decode error, `some e` is
never reached), or decoding succeeds and the store either accepts the
channel's INSERT (`decoded sig none`) or raises error `e` server-side while
executing it (`decoded sig (some e)`).  A server-side INSERT error leaves the
shared psycopg2 connection's transaction aborted — the source never calls
`conn.rollback()` — so whether the insert is actually attempted as recorded
here depends on the connection state when the channel's turn comes (see
`processChannel`). -/
inductive ChannelFate where
  | decodeError : PyStr → ChannelFate
  | decoded : Signal → Option PyStr → ChannelFate
deriving DecidableEq

/-- An MDF file as `ingest_mdf_to_db` observes it: its base name, its
(UTC-normalised) absolute start time, and its channels in `channels_db`
iteration order, each with the fate decoding/inserting it would have. -/
structure MdfFile where
  name : PyStr
  startTime : ℚ
  channels : List (PyStr × ChannelFate)
deriving DecidableEq

/-- Row construction of timescale.py lines 65-73: each sample becomes
`(start + offset, file_name, channel, value, unit)`. -/
def buildRows (fileName : PyStr) (startTime : ℚ) (channelName : PyStr)
    (sig : Signal) : List MeasurementRow :=
  (sig.timestamps.zip sig.samples).map fun p =>
    { time := startTime + p.1, file_name := fileName, channel := channelName,
      value := sampleValue p.2, unit := sig.unit }

/-- Accumulated state of the ingestion loop: the committed store table, the
`channels_ingested` status list, the `total_rows` counter, and whether the
shared connection's server-side transaction is currently aborted.  One
psycopg2 connection (autocommit off) is opened per `ingest_mdf_to_db` call
and shared by the whole loop; the source contains no `conn.rollback()`, so an
aborted transaction stays aborted until a `commit` ends it — and none ever
runs after a failure, because every later `execute` raises first. -/
structure IngestState where
  table : List MeasurementRow
  channels_ingested : List PyStr
  total_rows : Nat
  txAborted : Bool
deriving DecidableEq

/-- The status string recorded for a failed channel (timescale.py line 93). -/
def channelErrorStatus (name msg : PyStr) : PyStr :=
  name ++ str " (error: " ++ msg ++ str ")"

/-- The text of the psycopg2 `InFailedSqlTransaction` error raised by any
`execute` on a connection whose transaction a previous statement aborted. -/
def inFailedTxnMsg : PyStr :=
  str "current transaction is aborted, commands ignored until end of transaction block"

/-- Body of the per-channel loop (timescale.py lines 58-93).  A decode error
is caught and recorded and never touches the connection; a channel with zero
samples is skipped silently before any cursor use; if an earlier channel's
INSERT aborted the shared transaction, this channel's first `execute_values`
raises `InFailedSqlTransaction` — caught and recorded like any other error,
nothing inserted; otherwise a server-side INSERT error is caught and
recorded, commits nothing (the per-channel `commit` is never reached, and the
uncommitted work is discarded when the connection closes) and leaves the
transaction aborted for every later channel; a successful channel commits its
rows, which also ends the transaction cleanly. -/
def processChannel (fileName : PyStr) (startTime : ℚ) (st : IngestState)
    (c : PyStr × ChannelFate) : IngestState :=
  match c.2 with
  | .decodeError e =>
      { st with channels_ingested := st.channels_ingested ++ [channelErrorStatus c.1 e] }
  | .decoded sig insertError =>
      if sig.samples.length = 0 then st
      else if st.txAborted then
        { st with channels_ingested :=
            st.channels_ingested ++ [channelErrorStatus c.1 inFailedTxnMsg] }
      else
        match insertError with
        | some e =>
            { st with
              channels_ingested := st.channels_ingested ++ [channelErrorStatus c.1 e],
              txAborted := true }
        | none =>
            let rows := buildRows fileName startTime c.1 sig
            { table := insertRows st.table rows,
              channels_ingested := st.channels_ingested ++ [c.1],
              total_rows := st.total_rows + rows.length,
              txAborted := false }

/-- The whole per-channel loop, folded over the channel list in order. -/
def ingestChannels (fileName : PyStr) (startTime : ℚ)
    (chs : List (PyStr × ChannelFate)) (st : IngestState) : IngestState :=
  chs.foldl (processChannel fileName startTime) st

/-- Embedding of `ingest_mdf_to_db` on an existing, decodable file: every
channel of the file is processed in order against the given table state, on a
freshly opened connection (no transaction in progress). -/
def ingest_mdf_to_db (f : MdfFile) (table : List MeasurementRow) : IngestState :=
  ingestChannels f.name f.startTime f.channels
    { table := table, channels_ingested := [], total_rows := 0, txAborted := false }

/-- Environment of one rendering-tool invocation (plots.py): the store oracle
used by `cur.execute(sql)`, the `uuid4().hex` token this call would draw, the
`BACKEND_PUBLIC_URL`, and the exception (if any) that building or rendering
the figure from the fetched rows would raise.  Figure pixels are out of
scope; the observable effects are the statements sent, the file written, and
the returned string. -/
structure PlotEnv where
  dbRun : Db
  uuidHex : PyStr
  backendUrl : PyStr
  renderError : Option PyStr

/-- Observable outcome of one rendering-tool call. -/
structure PlotOutcome where
  sent : List PyStr
  savedFiles : List PyStr
  result : PyStr
deriving DecidableEq

/-- Embedding of `_save_fig` (plots.py lines 43-49): write `{uuid4().hex}.png`
into the plots directory and return its public URL.  The age-based purge of
files older than 3600 s touches only pre-existing files and is not part of
any claim, so it is not modelled. -/
def save_fig (env : PlotEnv) : PyStr × PyStr :=
  let filename := env.uuidHex ++ str ".png"
  (filename, env.backendUrl ++ str "/plots/" ++ filename)

/-- Embedding of `plot_timeseries` (plots.py lines 52-116).  The raw SQL text
is executed directly; an execute error, empty result, or figure-building
error each short-circuit; otherwise the figure is saved and a markdown image
reference is returned. -/
def plot_timeseries (env : PlotEnv) (sql title yLabel : PyStr) : PlotOutcome :=
  match env.dbRun sql with
  | .error e => { sent := [sql], savedFiles := [], result := str "Plot error: " ++ e }
  | .ok res =>
      if res.rows.isEmpty then
        { sent := [sql], savedFiles := [], result := str "Query returned no data." }
      else
        match env.renderError with
        | some e => { sent := [sql], savedFiles := [], result := str "Plot error: " ++ e }
        | none =>
            let fu := save_fig env
            { sent := [sql], savedFiles := [fu.1],
              result := str "![" ++ title ++ str "](" ++ fu.2 ++ str ")" }

/-- Embedding of `plot_barchart` (plots.py lines 119-165): identical control
flow and identical observable outcome shape (only the figure drawn differs,
which is out of scope). -/
def plot_barchart (env : PlotEnv) (sql title yLabel : PyStr) : PlotOutcome :=
  match env.dbRun sql with
  | .error e => { sent := [sql], savedFiles := [], result := str "Plot error: " ++ e }
  | .ok res =>
      if res.rows.isEmpty then
        { sent := [sql], savedFiles := [], result := str "Query returned no data." }
      else
        match env.renderError with
        | some e => { sent := [sql], savedFiles := [], result := str "Plot error: " ++ e }
        | none =>
            let fu := save_fig env
            { sent := [sql], savedFiles := [fu.1],
              result := str "![" ++ title ++ str "](" ++ fu.2 ++ str ")" }

/-- One entry of a chunk's content list (main.py lines 88-92): a dict tagged
`"type": "text"` carrying the token text, or any other block shape, which
contributes nothing. -/
inductive ContentBlock where
  | textBlock : PyStr → ContentBlock
  | otherBlock : ContentBlock
deriving DecidableEq

/-- A `on_chat_model_stream` chunk's content: a plain string or a list of
content blocks (main.py line 87). -/
inductive ChunkContent where
  | ofString : PyStr → ChunkContent
  | ofBlocks : List ContentBlock → ChunkContent
deriving DecidableEq

/-- The tool input of an `on_tool_start` event: already a string (passed
through), or a structured value carrying the string the serialisation of
main.py lines 101-106 yields for it (`json.dumps`, falling back to `str`). -/
inductive ToolInput where
  | strInput : PyStr → ToolInput
  | structured : PyStr → ToolInput
deriving DecidableEq

/-- The input payload emitted for a tool start (main.py lines 101-106). -/
def serializeInput : ToolInput → PyStr
  | .strInput s => s
  | .structured s => s

/-- The raw output of an `on_tool_end` event: a wrapped message exposing
`.content` (carrying `str(output.content)`), or a plain value (carrying
`str(tool_output)`). -/
inductive ToolOutput where
  | withContent : PyStr → ToolOutput
  | plain : PyStr → ToolOutput
deriving DecidableEq

/-- The output text extraction of main.py lines 111-115. -/
def outputStr : ToolOutput → PyStr
  | .withContent s => s
  | .plain s => s

/-- A raw event from `agent.astream_events` as `generate` classifies it:
`on_chat_model_stream`, `on_tool_start`, `on_tool_end`, or any other event
type (which matches no branch and is skipped). -/
inductive RawEvent where
  | chatModelStream : ChunkContent → RawEvent
  | toolStart : PyStr → PyStr → ToolInput → RawEvent
  | toolEnd : PyStr → ToolOutput → RawEvent
  | otherEvent : RawEvent
deriving DecidableEq

/-- A normalised SSE event written to the wire by `generate`: the four
`data: {json}` payload kinds, plus the terminal `data: [DONE]` line. -/
inductive SseEvent where
  | token : PyStr → SseEvent
  | toolStartEv : PyStr → PyStr → PyStr → SseEvent
  | toolEndEv : PyStr → PyStr → SseEvent
  | plotlyEv : PyStr → PyStr → SseEvent
  | done : SseEvent
deriving DecidableEq

/-- State of the `generate` loop: the `assistant_tokens` accumulator and the
events yielded so far. -/
structure GenState where
  assistant_tokens : List PyStr
  emitted : List SseEvent
deriving DecidableEq

/-- Body of the `generate` loop for one raw event (main.py lines 82-120),
translated branch by branch: token extraction appends to the accumulator and
yields token events one by one; a tool start yields one event; a tool end
whose output text starts with `PLOT:` yields a plotly event for
`/plots/{uid}.json` followed by a tool-end event with output
`Chart generated.`, and any other tool end yields the raw output text. -/
def generateStep (st : GenState) (e : RawEvent) : GenState :=
  match e with
  | .chatModelStream content =>
      match content with
      | .ofString s =>
          if s = [] then st
          else { assistant_tokens := st.assistant_tokens ++ [s],
                 emitted := st.emitted ++ [.token s] }
      | .ofBlocks blocks =>
          if blocks = [] then st
          else
            blocks.foldl
              (fun st' b =>
                match b with
                | .textBlock t =>
                    { assistant_tokens := st'.assistant_tokens ++ [t],
                      emitted := st'.emitted ++ [.token t] }
                | .otherBlock => st')
              st
  | .toolStart name runId input =>
      { st with emitted := st.emitted ++ [.toolStartEv runId name (serializeInput input)] }
  | .toolEnd runId output =>
      let o := outputStr output
      if (str "PLOT:").isPrefixOf o then
        { st with emitted := st.emitted ++
            [.plotlyEv runId (str "/plots/" ++ o.drop 5 ++ str ".json"),
             .toolEndEv runId (str "Chart generated.")] }
      else
        { st with emitted := st.emitted ++ [.toolEndEv runId o] }
  | .otherEvent => st

/-- The `generate` loop run over a whole raw-event sequence, starting from the
empty accumulator (main.py lines 76-120). -/
def generateRun (evs : List RawEvent) : GenState :=
  evs.foldl generateStep { assistant_tokens := [], emitted := [] }

/-- Specification-level view of one loop iteration: the SSE events a single
raw event contributes, in their emission order. -/
def eventEmission : RawEvent → List SseEvent
  | .chatModelStream content =>
      match content with
      | .ofString s => if s = [] then [] else [.token s]
      | .ofBlocks blocks =>
          blocks.foldr
            (fun b acc =>
              match b with
              | .textBlock t => .token t :: acc
              | .otherBlock => acc)
            []
  | .toolStart name runId input => [.toolStartEv runId name (serializeInput input)]
  | .toolEnd runId output =>
      let o := outputStr output
      if (str "PLOT:").isPrefixOf o then
        [.plotlyEv runId (str "/plots/" ++ o.drop 5 ++ str ".json"),
         .toolEndEv runId (str "Chart generated.")]
      else
        [.toolEndEv runId o]
  | .otherEvent => []

/-- Specification-level view of one loop iteration: the token texts a single
raw event contributes to the `assistant_tokens` accumulator. -/
def eventTokens : RawEvent → List PyStr
  | .chatModelStream content =>
      match content with
      | .ofString s => if s = [] then [] else [s]
      | .ofBlocks blocks =>
          blocks.foldr
            (fun b acc =>
              match b with
              | .textBlock t => t :: acc
              | .otherBlock => acc)
            []
  | _ => []

/-- A chat-history message (`{"role": ..., "content": ...}`). -/
inductive Role where
  | user : Role
  | assistant : Role
deriving DecidableEq

/-- One entry of a session's in-memory history list. -/
structure Message where
  role : Role
  content : PyStr
deriving DecidableEq

/-- Observable outcome of one `/chat/stream` turn: the SSE events delivered to
the client and the session history after the turn. -/
structure TurnOutcome where
  emitted : List SseEvent
  history : List Message
deriving DecidableEq

/-- A `/chat/stream` turn whose raw-event iteration runs to completion
(main.py lines 70-122): the user message is appended before streaming starts,
every raw event is processed in order, and after the loop the joined
accumulator is appended as the assistant entry and `[DONE]` is yielded. -/
def chat_stream_completed (history0 : List Message) (message : PyStr)
    (evs : List RawEvent) : TurnOutcome :=
  let g := generateRun evs
  { emitted := g.emitted ++ [.done],
    history := (history0 ++ [{ role := .user, content := message }]) ++
      [{ role := .assistant, content := g.assistant_tokens.flatten }] }

/-- A `/chat/stream` turn whose raw-event iteration does not complete: a
transport failure propagates out of the `async for`, or the task is cancelled
at an await point.  The user message was already appended (main.py line 73),
the prefix `p` of the completed run's pre-`[DONE]` emission was delivered,
and the two lines after the loop (assistant append, `[DONE]`) never run. -/
def chat_stream_aborted (history0 : List Message) (message : PyStr)
    (p : List SseEvent) : TurnOutcome :=
  { emitted := p, history := history0 ++ [{ role := .user, content := message }] }

/-- A store oracle that fails every statement, for witnesses where only the
gate behaviour matters. -/
def dbErr : Db := fun _ => .error (str "db error")

/-- A store oracle whose every query yields 501 rows, for the row-cap witness. -/
def db501 : Db :=
  fun _ => .ok { columns := [str "x"], rows := List.replicate 501 [Cell.intVal 1] }

/-- A one-channel, one-sample MDF file: the smallest input on which repeated
ingestion is observable. -/
def demoFile : MdfFile :=
  { name := str "run.mf4", startTime := 0,
    channels := [(str "vehicle_speed",
      .decoded { timestamps := [0], samples := [.finite 1], unit := str "km/h" } none)] }

/-- A healthy one-sample signal for the ingestion-isolation witness. -/
def sigA : Signal := { timestamps := [0], samples := [.finite 2], unit := str "u" }

/-- A second healthy signal (its sample is non-finite, so its value is NULL). -/
def sigB : Signal := { timestamps := [1], samples := [.nonFinite], unit := str "v" }

/-- A three-channel file whose middle channel's INSERT fails server-side:
channel `a` ingests cleanly, `bad` hits a store error, and `b` — which on its
own would ingest cleanly (see `okFile`) — then finds the shared transaction
aborted. -/
def poisonFile : MdfFile :=
  { name := str "run.mf4", startTime := 0,
    channels := [(str "a", .decoded sigA none),
                 (str "bad", .decoded sigA (some (str "disk full"))),
                 (str "b", .decoded sigB none)] }

/-- The same file without the failing channel: both remaining channels
ingest cleanly. -/
def okFile : MdfFile :=
  { name := str "run.mf4", startTime := 0,
    channels := [(str "a", .decoded sigA none),
                 (str "b", .decoded sigB none)] }

/-- A rendering-tool environment whose query yields one row. -/
def plotEnvDemo : PlotEnv :=
  { dbRun := fun _ => .ok
      { columns := [str "time", str "value"],
        rows := [[Cell.exotic (str "2024-06-10 08:00:00"), Cell.floatVal 1]] },
    uuidHex := str "cafe1234",
    backendUrl := str "http://localhost:8000",
    renderError := none }

/-- The scripted raw-event sequence of the spec's ordering scenario:
tool start A, token x, tool end A, token y. -/
def demoEvs : List RawEvent :=
  [ .toolStart (str "toolA") (str "A") (.strInput (str "1")),
    .chatModelStream (.ofString (str "x")),
    .toolEnd (str "A") (.plain (str "ok")),
    .chatModelStream (.ofString (str "y")) ]

theorem isPrefixOf_append_self (l t : List Char) : l.isPrefixOf (l ++ t) = true := by
  induction l with
  | nil => simp [List.isPrefixOf]
  | cons a as ih => simp [List.isPrefixOf, ih]

theorem exists_tail_of_isPrefixOf_cons {c : Char} {p m : List Char}
    (h : (c :: p).isPrefixOf m = true) : ∃ m', m = c :: m' := by
  cases m with
  | nil => simp [List.isPrefixOf] at h
  | cons b bs =>
    simp only [List.isPrefixOf, Bool.and_eq_true, beq_iff_eq] at h
    exact ⟨bs, by rw [h.1]⟩

theorem gateAccepts_false_of_head (s : PyStr) (c : Char) (m' : List Char)
    (hm : pyUpper (pyStrip s) = c :: m')
    (hS : ('S' == c) = false) (hW : ('W' == c) = false) :
    gateAccepts s = false := by
  unfold gateAccepts
  have e1 : str "SELECT" = 'S' :: str "ELECT" := rfl
  have e2 : str "WITH" = 'W' :: str "ITH" := rfl
  rw [hm, e1, e2]
  simp [List.isPrefixOf, hS, hW]

/-- C6: an input whose trimmed upper-cased form does not begin with `SELECT`
or `WITH` is answered with the structured rejection, with no statement sent to
the store and no exception (the model is a total function and the rejection
path returns before the `try` block); in particular any input whose
normalised form begins with `INSERT`, `UPDATE`, `DELETE` or `DROP` fails the
gate. -/
theorem query_gate_rejects_nonselect :
    (∀ (db : Db) (sql : PyStr), gateAccepts sql = false →
      query_sensor_data db sql =
        { sent := [], result := .rejected (str "Only SELECT queries are allowed.") }) ∧
    (∀ (s kw : PyStr),
      kw ∈ [str "INSERT", str "UPDATE", str "DELETE", str "DROP"] →
      kw.isPrefixOf (pyUpper (pyStrip s)) = true →
      gateAccepts s = false) := by
  constructor
  · intro db sql h
    simp [query_sensor_data, h]
  · intro s kw hkw h
    simp only [List.mem_cons, List.not_mem_nil, or_false] at hkw
    rcases hkw with rfl | rfl | rfl | rfl
    · rw [show str "INSERT" = 'I' :: str "NSERT" from rfl] at h
      obtain ⟨m', hm⟩ := exists_tail_of_isPrefixOf_cons h
      exact gateAccepts_false_of_head s 'I' m' hm (by decide) (by decide)
    · rw [show str "UPDATE" = 'U' :: str "PDATE" from rfl] at h
      obtain ⟨m', hm⟩ := exists_tail_of_isPrefixOf_cons h
      exact gateAccepts_false_of_head s 'U' m' hm (by decide) (by decide)
    · rw [show str "DELETE" = 'D' :: str "ELETE" from rfl] at h
      obtain ⟨m', hm⟩ := exists_tail_of_isPrefixOf_cons h
      exact gateAccepts_false_of_head s 'D' m' hm (by decide) (by decide)
    · rw [show str "DROP" = 'D' :: str "ROP" from rfl] at h
      obtain ⟨m', hm⟩ := exists_tail_of_isPrefixOf_cons h
      exact gateAccepts_false_of_head s 'D' m' hm (by decide) (by decide)

/-- Witness for C6 at concrete inputs. -/
theorem query_gate_rejects_nonselect_witness :
    query_sensor_data dbErr (str "  drop TABLE measurements ") =
      { sent := [], result := .rejected (str "Only SELECT queries are allowed.") } ∧
    gateAccepts (str "Insert INTO measurements VALUES (1)") = false :=
  ⟨query_gate_rejects_nonselect.1 dbErr _ (by decide),
   query_gate_rejects_nonselect.2 _ (str "INSERT") (by decide) (by decide)⟩

theorem query_sensor_data_accepted_error (db : Db) (sql : PyStr)
    (h : gateAccepts sql = true) (e : PyStr) (hdb : db sql = .error e) :
    query_sensor_data db sql = { sent := [wrapSql sql], result := .failed e } := by
  simp [query_sensor_data, runWrapped, h, hdb]

theorem query_sensor_data_accepted_ok (db : Db) (sql : PyStr)
    (h : gateAccepts sql = true) (r : PgResult) (hdb : db sql = .ok r) :
    query_sensor_data db sql =
      { sent := [wrapSql sql],
        result := .ok r.columns
          ((r.rows.take MAX_ROWS).map (fun row => row.map convertCell))
          ((r.rows.take MAX_ROWS).map (fun row => row.map convertCell)).length } := by
  simp [query_sensor_data, runWrapped, h, hdb]

/-- C7: an accepted query sends exactly the wrapped statement
`SELECT * FROM ({sql}) _q LIMIT 500`; the returned `count` always equals the
number of returned rows, at most 500; and when the inner query yields at
least 500 rows, exactly 500 rows and `count = 500` come back. -/
theorem query_row_cap (db : Db) (sql : PyStr) (h : gateAccepts sql = true) :
    (query_sensor_data db sql).sent = [wrapSql sql] ∧
    (∀ cols rows cnt, (query_sensor_data db sql).result = .ok cols rows cnt →
      cnt = rows.length ∧ rows.length ≤ MAX_ROWS) ∧
    (∀ r, db sql = .ok r → MAX_ROWS ≤ r.rows.length →
      (query_sensor_data db sql).result =
        .ok r.columns ((r.rows.take MAX_ROWS).map (fun row => row.map convertCell))
          MAX_ROWS) := by
  refine ⟨?_, ?_, ?_⟩
  · rcases hdb : db sql with e | r
    · rw [query_sensor_data_accepted_error db sql h e hdb]
    · rw [query_sensor_data_accepted_ok db sql h r hdb]
  · intro cols rows cnt hres
    rcases hdb : db sql with e | r
    · rw [query_sensor_data_accepted_error db sql h e hdb] at hres
      exact absurd hres (by simp)
    · rw [query_sensor_data_accepted_ok db sql h r hdb] at hres
      simp only [QueryResult.ok.injEq] at hres
      obtain ⟨-, hrows, hcnt⟩ := hres
      subst hrows
      subst hcnt
      refine ⟨rfl, ?_⟩
      rw [List.length_map, List.length_take]
      omega
  · intro r hdb hlen
    rw [query_sensor_data_accepted_ok db sql h r hdb]
    have : ((r.rows.take MAX_ROWS).map (fun row => row.map convertCell)).length =
        MAX_ROWS := by
      rw [List.length_map, List.length_take]
      omega
    rw [this]

set_option maxRecDepth 100000 in
/-- Witness for C7: a query matching 501 rows comes back with exactly 500. -/
theorem query_row_cap_witness :
    (query_sensor_data db501 (str "SELECT 1")).sent = [wrapSql (str "SELECT 1")] ∧
    (query_sensor_data db501 (str "SELECT 1")).result =
      .ok [str "x"] (List.replicate 500 [Cell.intVal 1]) 500 := by
  have h := query_row_cap db501 (str "SELECT 1") (by decide)
  refine ⟨h.1, ?_⟩
  have h3 := h.2.2 { columns := [str "x"], rows := List.replicate 501 [Cell.intVal 1] }
    rfl (by decide)
  rw [h3]
  decide

/-- C10: the gate is a pure prefix test on the trimmed upper-cased input —
whenever that form merely starts with the characters `SELECT` or `WITH`
(including prefixes of longer words and WITH statements with mutating
bodies), the statement passes the gate and is sent, wrapped, to the store. -/
theorem gate_is_pure_prefix_test (db : Db) (sql : PyStr)
    (h : (str "SELECT").isPrefixOf (pyUpper (pyStrip sql)) = true ∨
         (str "WITH").isPrefixOf (pyUpper (pyStrip sql)) = true) :
    gateAccepts sql = true ∧
    (query_sensor_data db sql).sent = [wrapSql sql] ∧
    (∀ m, (query_sensor_data db sql).result ≠ .rejected m) := by
  have hacc : gateAccepts sql = true := by
    unfold gateAccepts
    rcases h with h | h <;> simp [h]
  refine ⟨hacc, ?_, ?_⟩
  · rcases hdb : db sql with e | r <;>
      simp [query_sensor_data, runWrapped, hacc, hdb]
  · intro m
    rcases hdb : db sql with e | r <;>
      simp [query_sensor_data, runWrapped, hacc, hdb]

/-- Witness for C10: `WITHDRAW …` (a prefix of a longer word), `selectx …`,
and a WITH statement whose body deletes rows all pass the gate; the first is
sent to the store wrapped. -/
theorem gate_is_pure_prefix_test_witness :
    gateAccepts (str "WITHDRAW 100 FROM accounts") = true ∧
    (query_sensor_data dbErr (str "WITHDRAW 100 FROM accounts")).sent =
      [wrapSql (str "WITHDRAW 100 FROM accounts")] ∧
    gateAccepts (str "  selectx 1; DELETE FROM measurements") = true ∧
    gateAccepts
      (str "WITH doomed AS (DELETE FROM measurements RETURNING 1) SELECT * FROM doomed") =
      true := by
  have h1 := gate_is_pure_prefix_test dbErr (str "WITHDRAW 100 FROM accounts")
    (Or.inr (by decide))
  have h2 := gate_is_pure_prefix_test dbErr (str "  selectx 1; DELETE FROM measurements")
    (Or.inl (by decide))
  have h3 := gate_is_pure_prefix_test dbErr
    (str "WITH doomed AS (DELETE FROM measurements RETURNING 1) SELECT * FROM doomed")
    (Or.inr (by decide))
  exact ⟨h1.1, h1.2.1, h2.1, h3.1⟩

theorem insertRows_eq_append (rows table : List MeasurementRow) :
    insertRows table rows = table ++ rows := by
  induction rows generalizing table with
  | nil => simp [insertRows]
  | cons r rs ih =>
    have hstep : insertOnConflictDoNothing measurementsUniqueConstraints table r =
        table ++ [r] := by
      simp [insertOnConflictDoNothing, measurementsUniqueConstraints]
    calc insertRows table (r :: rs)
        = insertRows (table ++ [r]) rs := by simp [insertRows, hstep]
      _ = table ++ r :: rs := by rw [ih]; simp

/-- C1: the ingestion pipeline is not idempotent.  `_SCHEMA_SQL` declares no
unique or exclusion constraint on `measurements`, so the
`ON CONFLICT DO NOTHING` clause never fires: re-ingesting the one-channel,
one-sample file `demoFile` inserts its row a second time, doubling the row
count instead of leaving the table unchanged. -/
theorem ingest_twice_duplicates :
    (ingest_mdf_to_db demoFile []).table.length = 1 ∧
    (ingest_mdf_to_db demoFile []).total_rows = 1 ∧
    (ingest_mdf_to_db demoFile (ingest_mdf_to_db demoFile []).table).table.length = 2 := by
  have hrows : ∀ t : List MeasurementRow,
      ingest_mdf_to_db demoFile t =
        { table := t ++ buildRows demoFile.name demoFile.startTime (str "vehicle_speed")
            { timestamps := [0], samples := [.finite 1], unit := str "km/h" },
          channels_ingested := [str "vehicle_speed"],
          total_rows := 1,
          txAborted := false } := by
    intro t
    simp [ingest_mdf_to_db, demoFile, ingestChannels, processChannel,
      insertRows_eq_append, buildRows]
  rw [hrows, hrows]
  simp [buildRows, demoFile]

theorem processChannel_table_extends (fileName : PyStr) (startTime : ℚ)
    (s : IngestState) (c : PyStr × ChannelFate) :
    ∃ ext, (processChannel fileName startTime s c).table = s.table ++ ext := by
  rcases c with ⟨name, fate⟩
  rcases fate with e | ⟨sig, insErr⟩
  · exact ⟨[], by simp [processChannel]⟩
  · by_cases hz : sig.samples.length = 0
    · exact ⟨[], by simp [processChannel, hz]⟩
    · by_cases ha : s.txAborted
      · exact ⟨[], by simp [processChannel, hz, ha]⟩
      · rcases insErr with - | e
        · refine ⟨buildRows fileName startTime name sig, ?_⟩
          simp [processChannel, hz, ha, insertRows_eq_append]
        · exact ⟨[], by simp [processChannel, hz, ha]⟩

theorem ingestChannels_table_extends (fileName : PyStr) (startTime : ℚ)
    (chs : List (PyStr × ChannelFate)) (s : IngestState) :
    ∃ ext, (ingestChannels fileName startTime chs s).table = s.table ++ ext := by
  induction chs generalizing s with
  | nil => exact ⟨[], by simp [ingestChannels]⟩
  | cons c cs ih =>
    obtain ⟨e0, he0⟩ := processChannel_table_extends fileName startTime s c
    obtain ⟨e1, he1⟩ := ih (processChannel fileName startTime s c)
    refine ⟨e0 ++ e1, ?_⟩
    have : ingestChannels fileName startTime (c :: cs) s =
        ingestChannels fileName startTime cs (processChannel fileName startTime s c) := by
      simp [ingestChannels]
    rw [this, he1, he0, List.append_assoc]

/-- C9 counterexample: in `poisonFile` the middle channel's INSERT fails
server-side; channel `b` after it — which ingests cleanly when the failing
channel is absent (`okFile`) — is recorded with the `InFailedSqlTransaction`
error and contributes no rows, because the source never rolls back the shared
connection's aborted transaction.  So an insert failure does not leave the
remaining channels' ingestion unaffected. -/
theorem ingest_insert_failure_poisons_rest :
    (ingest_mdf_to_db poisonFile []).channels_ingested =
      [str "a",
       channelErrorStatus (str "bad") (str "disk full"),
       channelErrorStatus (str "b") inFailedTxnMsg] ∧
    (ingest_mdf_to_db poisonFile []).total_rows = 1 ∧
    (ingest_mdf_to_db poisonFile []).table.length = 1 ∧
    (ingest_mdf_to_db okFile []).channels_ingested = [str "a", str "b"] ∧
    (ingest_mdf_to_db okFile []).total_rows = 2 ∧
    (ingest_mdf_to_db okFile []).table.length = 2 := by
  refine ⟨?_, ?_, ?_, ?_, ?_, ?_⟩ <;>
    simp [ingest_mdf_to_db, poisonFile, okFile, ingestChannels, processChannel,
      sigA, sigB, insertRows_eq_append, buildRows]

/-- C9 as amended: a decode failure for one channel is caught, recorded as
`{name} (error: {msg})`, and leaves the remaining channels' processing
exactly as it otherwise would be; an insert failure is likewise caught and
recorded, inserts nothing, but leaves the shared connection's transaction
aborted, after which every later channel that reaches its insert fails with
the `InFailedSqlTransaction` error and inserts nothing (zero-sample channels
are still skipped and decode errors still get their own message); rows
committed by channels before the failure always survive — the table only ever
grows by appending. -/
theorem ingest_failure_semantics (fileName : PyStr) (startTime : ℚ)
    (pre post : List (PyStr × ChannelFate)) (name e : PyStr) (sig : Signal)
    (st : IngestState)
    (hnz : sig.samples.length ≠ 0)
    (hclean : (ingestChannels fileName startTime pre st).txAborted = false) :
    (∀ (pre' post' : List (PyStr × ChannelFate)) (n' e' : PyStr) (s : IngestState),
      ingestChannels fileName startTime (pre' ++ (n', .decodeError e') :: post') s =
        ingestChannels fileName startTime post'
          { ingestChannels fileName startTime pre' s with
            channels_ingested :=
              (ingestChannels fileName startTime pre' s).channels_ingested ++
                [channelErrorStatus n' e'] }) ∧
    (ingestChannels fileName startTime (pre ++ (name, .decoded sig (some e)) :: post) st =
      ingestChannels fileName startTime post
        { ingestChannels fileName startTime pre st with
          channels_ingested :=
            (ingestChannels fileName startTime pre st).channels_ingested ++
              [channelErrorStatus name e],
          txAborted := true }) ∧
    (∀ (s : IngestState), s.txAborted = true → ∀ (n' : PyStr) (sig' : Signal)
      (ins' : Option PyStr), sig'.samples.length ≠ 0 →
      processChannel fileName startTime s (n', .decoded sig' ins') =
        { s with channels_ingested := s.channels_ingested ++
            [channelErrorStatus n' inFailedTxnMsg] }) ∧
    (∀ chs s, ∃ ext, (ingestChannels fileName startTime chs s).table = s.table ++ ext) := by
  refine ⟨?_, ?_, ?_, ?_⟩
  · intro pre' post' n' e' s
    have hsplit : ingestChannels fileName startTime (pre' ++ (n', .decodeError e') :: post') s =
        ingestChannels fileName startTime post'
          (processChannel fileName startTime (ingestChannels fileName startTime pre' s)
            (n', .decodeError e')) := by
      simp [ingestChannels, List.foldl_append]
    rw [hsplit]
    congr 1
  · have hsplit : ingestChannels fileName startTime
        (pre ++ (name, .decoded sig (some e)) :: post) st =
        ingestChannels fileName startTime post
          (processChannel fileName startTime (ingestChannels fileName startTime pre st)
            (name, .decoded sig (some e))) := by
      simp [ingestChannels, List.foldl_append]
    rw [hsplit]
    congr 1
    simp [processChannel, hnz, hclean]
  · intro s habort n' sig' ins' hnz'
    simp [processChannel, hnz', habort]
  · exact ingestChannels_table_extends fileName startTime

/-- Witness for C9 (amended): the insert failure of `bad` after the clean
channel `a` is recorded and flips the transaction to aborted. -/
theorem ingest_failure_semantics_witness :
    ingestChannels (str "run.mf4") 0
        ([(str "a", .decoded sigA none)] ++
          (str "bad", .decoded sigA (some (str "disk full"))) ::
            [(str "b", .decoded sigB none)])
        { table := [], channels_ingested := [], total_rows := 0, txAborted := false } =
      ingestChannels (str "run.mf4") 0 [(str "b", .decoded sigB none)]
        { ingestChannels (str "run.mf4") 0 [(str "a", .decoded sigA none)]
            { table := [], channels_ingested := [], total_rows := 0, txAborted := false } with
          channels_ingested :=
            (ingestChannels (str "run.mf4") 0 [(str "a", .decoded sigA none)]
              { table := [], channels_ingested := [], total_rows := 0,
                txAborted := false }).channels_ingested ++
              [channelErrorStatus (str "bad") (str "disk full")],
          txAborted := true } :=
  (ingest_failure_semantics (str "run.mf4") 0
    [(str "a", .decoded sigA none)] [(str "b", .decoded sigB none)]
    (str "bad") (str "disk full") sigA
    { table := [], channels_ingested := [], total_rows := 0, txAborted := false }
    (by simp [sigA])
    (by simp [ingestChannels, processChannel, sigA])).2.1

/-- C2 counterexample: on a query yielding one row, `plot_timeseries` returns
a markdown image reference, not a `PLOT:`-prefixed artifact token. -/
theorem plot_no_plot_token_counterexample :
    (str "PLOT:").isPrefixOf
      (plot_timeseries plotEnvDemo (str "SELECT time, value FROM measurements")
        (str "Speed") (str "value")).result = false ∧
    (plot_timeseries plotEnvDemo (str "SELECT time, value FROM measurements")
      (str "Speed") (str "value")).result =
      str "![Speed](http://localhost:8000/plots/cafe1234.png)" := by
  decide

/-- C2 as amended: a rendering-tool invocation whose query yields at least
one row (and whose figure building raises nothing) writes the figure as the
PNG file `{uuid4().hex}.png` in the plots directory and returns the markdown
image reference `![{title}]({BACKEND_PUBLIC_URL}/plots/{uuid4().hex}.png)` —
a reference to the saved file, never the chart payload itself and never a
string of the form `PLOT:{id}`. -/
theorem plot_tools_return_markdown (env : PlotEnv) (sql title yLabel : PyStr)
    (res : PgResult) (hdb : env.dbRun sql = .ok res) (hrows : res.rows ≠ [])
    (hrender : env.renderError = none) :
    plot_timeseries env sql title yLabel =
      { sent := [sql], savedFiles := [env.uuidHex ++ str ".png"],
        result := str "![" ++ title ++ str "](" ++ env.backendUrl ++ str "/plots/" ++
          (env.uuidHex ++ str ".png") ++ str ")" } ∧
    plot_barchart env sql title yLabel =
      { sent := [sql], savedFiles := [env.uuidHex ++ str ".png"],
        result := str "![" ++ title ++ str "](" ++ env.backendUrl ++ str "/plots/" ++
          (env.uuidHex ++ str ".png") ++ str ")" } ∧
    (∀ uid : PyStr,
      (plot_timeseries env sql title yLabel).result ≠ str "PLOT:" ++ uid) := by
  have hne : res.rows.isEmpty = false := by
    cases hr : res.rows with
    | nil => exact absurd hr hrows
    | cons a l => rfl
  have hts : plot_timeseries env sql title yLabel =
      { sent := [sql], savedFiles := [env.uuidHex ++ str ".png"],
        result := str "![" ++ title ++ str "](" ++ env.backendUrl ++ str "/plots/" ++
          (env.uuidHex ++ str ".png") ++ str ")" } := by
    simp [plot_timeseries, hdb, hne, hrender, save_fig]
  have hbc : plot_barchart env sql title yLabel =
      { sent := [sql], savedFiles := [env.uuidHex ++ str ".png"],
        result := str "![" ++ title ++ str "](" ++ env.backendUrl ++ str "/plots/" ++
          (env.uuidHex ++ str ".png") ++ str ")" } := by
    simp [plot_barchart, hdb, hne, hrender, save_fig]
  refine ⟨hts, hbc, ?_⟩
  intro uid heq
  rw [hts] at heq
  have e1 : str "![" ++ title ++ str "](" ++ env.backendUrl ++ str "/plots/" ++
      (env.uuidHex ++ str ".png") ++ str ")" =
      '!' :: (str "[" ++ title ++ str "](" ++ env.backendUrl ++ str "/plots/" ++
        (env.uuidHex ++ str ".png") ++ str ")") := by
    simp [str]
  have e2 : str "PLOT:" ++ uid = 'P' :: (str "LOT:" ++ uid) := rfl
  rw [e1, e2] at heq
  exact absurd (List.head_eq_of_cons_eq heq) (by decide)

/-- Witness for C2 (amended) at a concrete one-row invocation. -/
theorem plot_tools_return_markdown_witness :
    plot_timeseries plotEnvDemo (str "SELECT time, value FROM measurements")
      (str "Speed") (str "value") =
      { sent := [str "SELECT time, value FROM measurements"],
        savedFiles := [str "cafe1234.png"],
        result := str "![Speed](http://localhost:8000/plots/cafe1234.png)" } := by
  have h := (plot_tools_return_markdown plotEnvDemo
    (str "SELECT time, value FROM measurements") (str "Speed") (str "value")
    { columns := [str "time", str "value"],
      rows := [[Cell.exotic (str "2024-06-10 08:00:00"), Cell.floatVal 1]] }
    rfl (by decide) rfl).1
  rw [h]
  decide

/-- C3 counterexample: the very statement the query gate rejects (sending
nothing to the store) is sent verbatim to the store by both rendering tools. -/
theorem plot_bypasses_gate_counterexample :
    (plot_timeseries plotEnvDemo (str "DROP TABLE measurements")
      (str "t") (str "v")).sent = [str "DROP TABLE measurements"] ∧
    (plot_barchart plotEnvDemo (str "DROP TABLE measurements")
      (str "t") (str "v")).sent = [str "DROP TABLE measurements"] ∧
    gateAccepts (str "DROP TABLE measurements") = false ∧
    (query_sensor_data dbErr (str "DROP TABLE measurements")).sent = [] := by
  decide

/-- C3 as amended: the rendering tools do not go through the query gate's
execution path at all — whatever the caller supplies, the exact SQL string is
sent to the store, with no SELECT/WITH validation, no subquery wrapping and
no 500-row LIMIT, so a mutation statement supplied to a rendering tool is
sent to the store. -/
theorem plot_tools_send_raw_sql (env : PlotEnv) (sql title yLabel : PyStr) :
    (plot_timeseries env sql title yLabel).sent = [sql] ∧
    (plot_barchart env sql title yLabel).sent = [sql] := by
  constructor
  · rcases hdb : env.dbRun sql with e | res
    · simp [plot_timeseries, hdb]
    · rcases hre : env.renderError with - | e <;>
        rcases hni : res.rows.isEmpty <;>
          simp [plot_timeseries, hdb, hre, hni]
  · rcases hdb : env.dbRun sql with e | res
    · simp [plot_barchart, hdb]
    · rcases hre : env.renderError with - | e <;>
        rcases hni : res.rows.isEmpty <;>
          simp [plot_barchart, hdb, hre, hni]

theorem blocksFoldl_spec (blocks : List ContentBlock) (st : GenState) :
    blocks.foldl
      (fun st' b =>
        match b with
        | ContentBlock.textBlock t =>
            { assistant_tokens := st'.assistant_tokens ++ [t],
              emitted := st'.emitted ++ [SseEvent.token t] }
        | ContentBlock.otherBlock => st')
      st =
    { assistant_tokens := st.assistant_tokens ++
        blocks.foldr
          (fun b acc =>
            match b with
            | ContentBlock.textBlock t => t :: acc
            | ContentBlock.otherBlock => acc)
          [],
      emitted := st.emitted ++
        blocks.foldr
          (fun b acc =>
            match b with
            | ContentBlock.textBlock t => SseEvent.token t :: acc
            | ContentBlock.otherBlock => acc)
          [] } := by
  induction blocks generalizing st with
  | nil => simp
  | cons b bs ih =>
    cases b with
    | textBlock t => rw [List.foldl_cons, ih]; simp
    | otherBlock => rw [List.foldl_cons, ih]; rfl

theorem generateStep_spec (st : GenState) (e : RawEvent) :
    generateStep st e =
      { assistant_tokens := st.assistant_tokens ++ eventTokens e,
        emitted := st.emitted ++ eventEmission e } := by
  cases e with
  | chatModelStream content =>
    cases content with
    | ofString s =>
      by_cases hs : s = [] <;> simp [generateStep, eventTokens, eventEmission, hs]
    | ofBlocks blocks =>
      by_cases hb : blocks = []
      · subst hb; simp [generateStep, eventTokens, eventEmission]
      · rw [show generateStep st (.chatModelStream (.ofBlocks blocks)) =
            blocks.foldl
              (fun st' b =>
                match b with
                | ContentBlock.textBlock t =>
                    { assistant_tokens := st'.assistant_tokens ++ [t],
                      emitted := st'.emitted ++ [SseEvent.token t] }
                | ContentBlock.otherBlock => st')
              st from by simp [generateStep, hb]]
        rw [blocksFoldl_spec]
        simp [eventTokens, eventEmission]
  | toolStart name runId input => simp [generateStep, eventTokens, eventEmission]
  | toolEnd runId output =>
    by_cases hp : (str "PLOT:").isPrefixOf (outputStr output) = true <;>
      simp [generateStep, eventTokens, eventEmission, hp]
  | otherEvent => simp [generateStep, eventTokens, eventEmission]

theorem generateRun_spec (evs : List RawEvent) :
    generateRun evs =
      { assistant_tokens := (evs.map eventTokens).flatten,
        emitted := (evs.map eventEmission).flatten } := by
  suffices h : ∀ (l : List RawEvent) (st : GenState), l.foldl generateStep st =
      { assistant_tokens := st.assistant_tokens ++ (l.map eventTokens).flatten,
        emitted := st.emitted ++ (l.map eventEmission).flatten } by
    rw [generateRun, h]; rfl
  intro l
  induction l with
  | nil => intro st; simp
  | cons e es ih =>
    intro st
    rw [List.foldl_cons, generateStep_spec, ih]
    simp

theorem done_not_in_blocksFoldr (blocks : List ContentBlock) :
    SseEvent.done ∉ blocks.foldr
      (fun b acc =>
        match b with
        | ContentBlock.textBlock t => SseEvent.token t :: acc
        | ContentBlock.otherBlock => acc)
      [] := by
  induction blocks with
  | nil => simp
  | cons b bs ih =>
    cases b with
    | textBlock t => simpa using ih
    | otherBlock => simpa using ih

theorem done_not_in_eventEmission (e : RawEvent) : SseEvent.done ∉ eventEmission e := by
  cases e with
  | chatModelStream content =>
    cases content with
    | ofString s => by_cases hs : s = [] <;> simp [eventEmission, hs]
    | ofBlocks blocks => simpa [eventEmission] using done_not_in_blocksFoldr blocks
  | toolStart name runId input => simp [eventEmission]
  | toolEnd runId output =>
    by_cases hp : (str "PLOT:").isPrefixOf (outputStr output) = true <;>
      simp [eventEmission, hp]
  | otherEvent => simp [eventEmission]

/-- C4: the multiplexer's emission is the concatenation, in arrival order, of
the per-event emissions — no reordering of token, tool-start and tool-end
events — and the single assistant history entry appended at stream end is the
concatenation, in arrival order, of all extracted token texts; on the
scripted sequence tool-start A, token x, tool-end A, token y the emitted
sequence preserves exactly that order and the assistant entry is `xy`. -/
theorem multiplexer_preserves_order (history0 : List Message) (message : PyStr)
    (evs : List RawEvent) :
    (generateRun evs).emitted = (evs.map eventEmission).flatten ∧
    chat_stream_completed history0 message evs =
      { emitted := (evs.map eventEmission).flatten ++ [SseEvent.done],
        history := history0 ++
          [{ role := Role.user, content := message },
           { role := Role.assistant, content := ((evs.map eventTokens).flatten).flatten }] } ∧
    (generateRun demoEvs).emitted =
      [SseEvent.toolStartEv (str "A") (str "toolA") (str "1"),
       SseEvent.token (str "x"),
       SseEvent.toolEndEv (str "A") (str "ok"),
       SseEvent.token (str "y")] ∧
    chat_stream_completed [] (str "hi") demoEvs =
      { emitted := [SseEvent.toolStartEv (str "A") (str "toolA") (str "1"),
          SseEvent.token (str "x"), SseEvent.toolEndEv (str "A") (str "ok"),
          SseEvent.token (str "y"), SseEvent.done],
        history := [{ role := Role.user, content := str "hi" },
                    { role := Role.assistant, content := str "xy" }] } := by
  refine ⟨by rw [generateRun_spec], ?_, by decide, by decide⟩
  rw [chat_stream_completed, generateRun_spec]
  simp

/-- C5: when the raw-event iteration of a turn does not run to completion,
the delivered events are a prefix of the pre-`[DONE]` emission — so no
`[DONE]` sentinel is ever delivered — and the history holds the user message
appended at the start of the turn but no new assistant entry. -/
theorem stream_abort_safety (history0 : List Message) (message : PyStr)
    (evs : List RawEvent) (p : List SseEvent)
    (hp : p <+: (generateRun evs).emitted) :
    SseEvent.done ∉ (chat_stream_aborted history0 message p).emitted ∧
    (chat_stream_aborted history0 message p).history =
      history0 ++ [{ role := Role.user, content := message }] ∧
    (∀ m ∈ (chat_stream_aborted history0 message p).history,
      m.role = Role.assistant → m ∈ history0) := by
  refine ⟨?_, rfl, ?_⟩
  · intro hdone
    obtain ⟨rest, hrest⟩ := hp
    have h1 : SseEvent.done ∈ (generateRun evs).emitted := by
      rw [← hrest]
      exact List.mem_append_left rest hdone
    rw [generateRun_spec] at h1
    simp only [List.mem_flatten, List.mem_map] at h1
    obtain ⟨l, ⟨e, -, rfl⟩, hmem⟩ := h1
    exact done_not_in_eventEmission e hmem
  · intro m hm hrole
    simp only [chat_stream_aborted, List.mem_append, List.mem_singleton] at hm
    rcases hm with hm | rfl
    · exact hm
    · simp at hrole

/-- Witness for C5: aborting the scripted turn after two delivered events. -/
theorem stream_abort_safety_witness :
    SseEvent.done ∉ (chat_stream_aborted [] (str "hi")
      [SseEvent.toolStartEv (str "A") (str "toolA") (str "1"),
       SseEvent.token (str "x")]).emitted ∧
    (chat_stream_aborted [] (str "hi")
      [SseEvent.toolStartEv (str "A") (str "toolA") (str "1"),
       SseEvent.token (str "x")]).history =
      [{ role := Role.user, content := str "hi" }] := by
  have h := stream_abort_safety [] (str "hi") demoEvs
    [SseEvent.toolStartEv (str "A") (str "toolA") (str "1"), SseEvent.token (str "x")]
    ⟨[SseEvent.toolEndEv (str "A") (str "ok"), SseEvent.token (str "y")], by decide⟩
  exact ⟨h.1, h.2.1⟩

theorem not_within_of_count_lt (l₁ l₂ : List Char) (c : Char)
    (h : l₂.count c < l₁.count c) : ¬ l₁ <:+: l₂ := by
  intro hinf
  obtain ⟨s, t, hst⟩ := hinf
  rw [← hst] at h
  simp only [List.count_append] at h
  omega

/-- C8: a tool-end event whose output text is `PLOT:{uid}` makes the
multiplexer emit exactly a plotly event addressing `/plots/{uid}.json`
followed by a tool-end event whose visible output is the placeholder
`Chart generated.`; the raw `PLOT:`-prefixed text occurs in neither emitted
payload (it is not even a substring of either). -/
theorem plot_token_indirection (st : GenState) (runId uid : PyStr)
    (output : ToolOutput) (h : outputStr output = str "PLOT:" ++ uid) :
    generateStep st (.toolEnd runId output) =
      { st with emitted := st.emitted ++
          [SseEvent.plotlyEv runId (str "/plots/" ++ uid ++ str ".json"),
           SseEvent.toolEndEv runId (str "Chart generated.")] } ∧
    ¬ (str "PLOT:" ++ uid) <:+: (str "/plots/" ++ uid ++ str ".json") ∧
    ¬ (str "PLOT:" ++ uid) <:+: (str "Chart generated.") := by
  have c3 : (str "PLOT:").count 'P' = 1 := by decide
  refine ⟨?_, ?_, ?_⟩
  · have hpre : (str "PLOT:").isPrefixOf (outputStr output) = true := by
      rw [h]; exact isPrefixOf_append_self _ _
    have hdrop : (outputStr output).drop 5 = uid := by
      rw [h, show (5 : Nat) = (str "PLOT:").length from rfl]
      simp
    simp [generateStep, hpre, hdrop]
  · apply not_within_of_count_lt _ _ 'P'
    have c1 : (str "/plots/").count 'P' = 0 := by decide
    have c2 : (str ".json").count 'P' = 0 := by decide
    simp only [List.count_append, c1, c2, c3]
    omega
  · apply not_within_of_count_lt _ _ 'P'
    have c4 : (str "Chart generated.").count 'P' = 0 := by decide
    simp only [List.count_append, c3, c4]
    omega

/-- Witness for C8 at the concrete output `PLOT:cafe1234`. -/
theorem plot_token_indirection_witness :
    generateStep { assistant_tokens := [], emitted := [] }
      (.toolEnd (str "r1") (.withContent (str "PLOT:cafe1234"))) =
      { assistant_tokens := [],
        emitted := [SseEvent.plotlyEv (str "r1") (str "/plots/cafe1234.json"),
                    SseEvent.toolEndEv (str "r1") (str "Chart generated.")] } := by
  have h := (plot_token_indirection { assistant_tokens := [], emitted := [] }
    (str "r1") (str "cafe1234") (.withContent (str "PLOT:cafe1234")) (by decide)).1
  rw [h]
  decide

end PocApl
